import Mathlib

/-!
Shallow embedding of `pySFRbox8.py`: a WebSocket remote-control client for a
set-top box.  JSON values are modelled by `JVal`, Python exceptions by
`PyError`, the `Remote._pending_requests` dict by an association list
`Pending`, and the network side effects of `Remote._send` by an explicit
event trace (`SendEvent`).  The fresh `uuid.uuid4()` identifier is passed in
as an explicit `request_id` argument; the arrival or non-arrival of the
correlated response within the configured timeout is an explicit
`SendOutcome` argument.
-/

/-- A decoded JSON value: a string or an object (Python `dict`).  Other JSON
shapes (numbers, arrays, booleans) never occur in this protocol's messages
and are omitted. -/
inductive JVal where
  | str : String → JVal
  | obj : List (String × JVal) → JVal

/-- Lookup of a key in a JSON object's field list (Python `d[k]` / `d.get(k)`
on a dict; dict keys are unique, so first match suffices). -/
def lookupField : List (String × JVal) → String → Option JVal
  | [], _ => none
  | (k, v) :: rest, key => if k = key then some v else lookupField rest key

/-- Python `d.get(key)`: `none` when the value is not an object or the key is
absent. -/
def JVal.get? : JVal → String → Option JVal
  | .obj fields, key => lookupField fields key
  | .str _, _ => none

/-- Python truthiness of the values that can appear here: a string is truthy
iff nonempty, a dict iff nonempty. -/
def JVal.truthy : JVal → Bool
  | .str s => !(s == "")
  | .obj fields => !fields.isEmpty

/-- Python `v == "lit"` for a decoded JSON value: string comparison, `false`
for any non-string value. -/
def JVal.eqStr : JVal → String → Bool
  | .str t, s => t == s
  | .obj _, _ => false

/-- Python dict assignment `d[key] = v`: replaces the value in place when the
key is present, otherwise appends the new binding (insertion order, as a
CPython dict does). -/
def setField : List (String × JVal) → String → JVal → List (String × JVal)
  | [], key, v => [(key, v)]
  | (k, w) :: rest, key, v =>
      if k = key then (key, v) :: rest else (k, w) :: setField rest key v

/-- The Python exceptions that the embedded code can raise.  `keyError`
carries the missing key, `remoteTimeout` the outbound payload,
`remoteResponse` the payload and the response, `invalidButton` the offending
name.  `jsonDecode` stands for `json.JSONDecodeError`, `invalidState` for
`concurrent.futures.InvalidStateError` (second `set_result` on one future),
`typeError` / `attributeError` for indexing or attribute access on a value of
the wrong shape. -/
inductive PyError where
  | keyError : JVal → PyError
  | typeError : PyError
  | attributeError : PyError
  | invalidState : PyError
  | jsonDecode : PyError
  | remoteTimeout : JVal → PyError
  | remoteResponse : JVal → JVal → PyError
  | invalidButton : String → PyError

/-- Python `d[key]` on a decoded JSON value: `KeyError(key)` when the key is
absent from an object, `TypeError` when the value is not an object (string
indexing with a string key). -/
def get_item (v : JVal) (key : String) : Except PyError JVal :=
  match v with
  | .str _ => .error .typeError
  | .obj fields =>
      match lookupField fields key with
      | some x => .ok x
      | none => .error (.keyError (.str key))

/-- `Remote._pending_requests : dict[str, Future[dict]]`.  A future's state is
`none` while unresolved and `some m` once `set_result(m)` ran. -/
abbrev Pending := List (String × Option JVal)

/-- Dict lookup in the pending table: `some fut` when the key is bound. -/
def Pending.lookup : Pending → String → Option (Option JVal)
  | [], _ => none
  | (k, v) :: rest, key => if k = key then some v else Pending.lookup rest key

/-- Removes every binding of `key` (a dict holds at most one). -/
def Pending.removeAll : Pending → String → Pending
  | [], _ => []
  | (k, v) :: rest, key =>
      if k = key then Pending.removeAll rest key
      else (k, v) :: Pending.removeAll rest key

/-- Dict assignment `self._pending_requests[request_id] = future`. -/
def Pending.set (p : Pending) (key : String) (v : Option JVal) : Pending :=
  (key, v) :: Pending.removeAll p key

/-- Python `del self._pending_requests[request_id]`: `KeyError` when the key
is absent. -/
def Pending.del (p : Pending) (key : String) : Except PyError Pending :=
  match Pending.lookup p key with
  | some _ => .ok (Pending.removeAll p key)
  | none => .error (.keyError (.str key))

/-- A network side effect of `Remote._send`, in execution order:
`transmit` is `self._connection.send(json.dumps(payload))` (serialization is
kept as the structured value), `register` is the insertion of the fresh
future into `self._pending_requests`. -/
inductive SendEvent where
  | transmit : JVal → SendEvent
  | register : String → SendEvent

/-- What the environment does about the request while the caller blocks in
`future.result(timeout=self.timeout)`: either the wait times out, or the
receive loop resolved the future with a response message. -/
inductive SendOutcome where
  | timeout : SendOutcome
  | response : JVal → SendOutcome

/-- A record that `logging.warning(f"Unhandled message: {message}")` ran. -/
inductive LogEvent where
  | warnUnhandled : JVal → LogEvent

/-- One iteration's input to `WebSocketClient._listen_for_messages`:
`closed` is `WebSocketConnectionClosedException` from `recv`, `empty` a falsy
`data`, `good m` a frame whose `json.loads` yields `m`, `bad` a frame on
which `json.loads` raises. -/
inductive Frame where
  | closed : Frame
  | empty : Frame
  | good : JVal → Frame
  | bad : Frame

namespace Remote

/-- `Remote.BUTTONS`, copied from the source. -/
def BUTTONS : List String :=
  ["power", "up", "right", "left", "down", "ok", "back", "home",
   "volDown", "volUp", "mute", "channelDown", "channelUp",
   "fastBackward", "fastForward", "playPause",
   "0", "1", "2", "3", "4", "5", "6", "7", "8", "9", "stop", "record"]

/-- The timeout normalization in `Remote.__init__`: the `timeout` parameter
defaults to `10`; a value of `0` is replaced by `None` (`future.result`
then waits without a timeout).  Argument `none` = argument absent; result
`none` = `self.timeout is None` = wait indefinitely. -/
def init_timeout (timeout : Option Nat) : Option Nat :=
  let t := timeout.getD 10
  if t = 0 then none else some t

/-- `Remote._send(payload)`.  Steps, in source order: attach the fresh
`request_id` to `payload`; `self._connection.send(json.dumps(payload))`;
create a `Future` and register it; block in `future.result(timeout=...)`
(`outcome` says how that wait ends); `finally: del` the entry; then check
`remoteResponseCode`.  Returns the call's result, the final pending table,
and the event trace in execution order.  A non-dict payload would fail item
assignment (`TypeError`).  (The response check `"remoteResponseCode" not in
response or response["remoteResponseCode"] != "OK"` is modelled for dict
responses, the only shape the box sends.) -/
def send (request_id : String) (payload : JVal) (pending : Pending)
    (outcome : SendOutcome) :
    Except PyError JVal × Pending × List SendEvent :=
  match payload with
  | .str _ => (.error .typeError, pending, [])
  | .obj fields =>
    let payload1 := JVal.obj (setField fields "requestId" (.str request_id))
    let pending1 := Pending.set pending request_id none
    let step : Except PyError JVal × Pending :=
      match outcome with
      | .timeout =>
          match Pending.del pending1 request_id with
          | .error e => (.error e, pending1)
          | .ok pending2 => (.error (.remoteTimeout payload1), pending2)
      | .response resp =>
          match Pending.del pending1 request_id with
          | .error e => (.error e, pending1)
          | .ok pending2 =>
              match JVal.get? resp "remoteResponseCode" with
              | some v =>
                  if JVal.eqStr v "OK" then (.ok resp, pending2)
                  else (.error (.remoteResponse payload1 resp), pending2)
              | none => (.error (.remoteResponse payload1 resp), pending2)
    (step.1, step.2, [SendEvent.transmit payload1, SendEvent.register request_id])

/-- `Remote.press_button(button)`: membership test against `BUTTONS` before
`_send({"action": "buttonEvent", "params": {"key": button}})`. -/
def press_button (request_id : String) (button : String) (pending : Pending)
    (outcome : SendOutcome) :
    Except PyError Unit × Pending × List SendEvent :=
  if button ∈ BUTTONS then
    match send request_id
        (JVal.obj [("action", .str "buttonEvent"),
                   ("params", .obj [("key", .str button)])]) pending outcome with
    | (.ok _, p, ev) => (.ok (), p, ev)
    | (.error e, p, ev) => (.error e, p, ev)
  else
    (.error (.invalidButton button), pending, [])

/-- `Remote.get_versions()`: `_send({"action": "getVersions"})`, then
`response["data"]`. -/
def get_versions (request_id : String) (pending : Pending)
    (outcome : SendOutcome) :
    Except PyError JVal × Pending × List SendEvent :=
  match send request_id (JVal.obj [("action", .str "getVersions")])
      pending outcome with
  | (.ok resp, p, ev) => (get_item resp "data", p, ev)
  | (.error e, p, ev) => (.error e, p, ev)

/-- `Remote.is_power_on()`: `_send({"action": "getStatus"})`, then
`response["data"]["power"] == "powerOn"`. -/
def is_power_on (request_id : String) (pending : Pending)
    (outcome : SendOutcome) :
    Except PyError Bool × Pending × List SendEvent :=
  match send request_id (JVal.obj [("action", .str "getStatus")])
      pending outcome with
  | (.error e, p, ev) => (.error e, p, ev)
  | (.ok resp, p, ev) =>
      match get_item resp "data" with
      | .error e => (.error e, p, ev)
      | .ok d =>
          match get_item d "power" with
          | .error e => (.error e, p, ev)
          | .ok pw => (.ok (JVal.eqStr pw "powerOn"), p, ev)

/-- `Remote._handle_message(message)`: `if request_id :=
message.get("requestId"):` (walrus plus truthiness) then
`self._pending_requests[request_id].set_result(message)` — a plain dict
index, `KeyError` when the id is not pending, and `set_result` raises
`InvalidStateError` on an already-resolved future; otherwise
`logging.warning(...)`.  A non-dict message has no `.get`
(`AttributeError`); a dict used as a dict key is unhashable (`TypeError`).
Returns the updated pending table and the log events, or the uncaught
exception. -/
def handle_message (pending : Pending) (message : JVal) :
    Except PyError (Pending × List LogEvent) :=
  match message with
  | .str _ => .error .attributeError
  | .obj fields =>
    match lookupField fields "requestId" with
    | some rid =>
        if rid.truthy then
          match rid with
          | .obj _ => .error .typeError
          | .str s =>
              match Pending.lookup pending s with
              | some none => .ok (Pending.set pending s (some message), [])
              | some (some _) => .error .invalidState
              | none => .error (.keyError (.str s))
        else .ok (pending, [.warnUnhandled message])
    | none => .ok (pending, [.warnUnhandled message])

/-- `WebSocketClient._listen_for_messages` with the `Remote` handler, run on
a finite prefix of received frames: loop `recv`; break on closed connection
or falsy data; `json.loads`; dispatch to `_handle_message`.  Nothing catches
an exception from `json.loads` or from the handler: it terminates the
receive thread (returned as `some e`).  Result: final pending table, log
events, and the uncaught exception if any. -/
def listen_loop : Pending → List Frame → Pending × List LogEvent × Option PyError
  | p, [] => (p, [], none)
  | p, .closed :: _ => (p, [], none)
  | p, .empty :: _ => (p, [], none)
  | p, .bad :: _ => (p, [], some .jsonDecode)
  | p, .good m :: rest =>
      match handle_message p m with
      | .ok (p', lgs) =>
          match listen_loop p' rest with
          | (p2, lgs2, err) => (p2, lgs ++ lgs2, err)
      | .error e => (p, [], some e)

end Remote

/-- `StatusListener._handle_message(message)`:
`is_power_on = message["data"]["status"] == "powerOn"`, then the callback is
invoked with it iff one was supplied (`if self.on_status_change:`).
`on_status_change` models whether a (truthy) callback was supplied; the
result `some b` records the invocation with argument `b`, `none` that
nothing else happened. -/
def StatusListener.handle_message (on_status_change : Bool) (message : JVal) :
    Except PyError (Option Bool) :=
  match get_item message "data" with
  | .error e => .error e
  | .ok d =>
      match get_item d "status" with
      | .error e => .error e
      | .ok st =>
          let b := JVal.eqStr st "powerOn"
          .ok (if on_status_change then some b else none)

section HelperLemmas

theorem Pending.lookup_set_self (p : Pending) (k : String) (v : Option JVal) :
    Pending.lookup (Pending.set p k v) k = some v := by
  simp [Pending.set, Pending.lookup]

theorem Pending.lookup_removeAll_self (p : Pending) (k : String) :
    Pending.lookup (Pending.removeAll p k) k = none := by
  induction p with
  | nil => rfl
  | cons kv rest ih =>
      obtain ⟨k', v'⟩ := kv
      by_cases h : k' = k <;> simp [Pending.removeAll, Pending.lookup, h, ih]

theorem Pending.del_set_self (p : Pending) (k : String) (v : Option JVal) :
    Pending.del (Pending.set p k v) k =
      .ok (Pending.removeAll (Pending.set p k v) k) := by
  simp [Pending.del, Pending.lookup_set_self]

theorem JVal.eqStr_true_iff (v : JVal) (s : String) :
    JVal.eqStr v s = true ↔ v = JVal.str s := by
  cases v <;> simp [JVal.eqStr]

/-- Evaluation of `Remote._send` when the wait for the future times out. -/
theorem Remote.send_timeout_eq (request_id : String)
    (fields : List (String × JVal)) (pending : Pending) :
    Remote.send request_id (JVal.obj fields) pending SendOutcome.timeout =
      (.error (.remoteTimeout
                 (JVal.obj (setField fields "requestId" (.str request_id)))),
       Pending.removeAll (Pending.set pending request_id none) request_id,
       [SendEvent.transmit
          (JVal.obj (setField fields "requestId" (.str request_id))),
        SendEvent.register request_id]) := by
  simp [Remote.send, Pending.del_set_self]

/-- Evaluation of `Remote._send` when the future is resolved with `resp`. -/
theorem Remote.send_response_eq (request_id : String)
    (fields : List (String × JVal)) (pending : Pending) (resp : JVal) :
    Remote.send request_id (JVal.obj fields) pending
        (SendOutcome.response resp) =
      ((match JVal.get? resp "remoteResponseCode" with
        | some v =>
            if JVal.eqStr v "OK" then Except.ok resp
            else .error (.remoteResponse
                (JVal.obj (setField fields "requestId" (.str request_id))) resp)
        | none => .error (.remoteResponse
            (JVal.obj (setField fields "requestId" (.str request_id))) resp)),
       Pending.removeAll (Pending.set pending request_id none) request_id,
       [SendEvent.transmit
          (JVal.obj (setField fields "requestId" (.str request_id))),
        SendEvent.register request_id]) := by
  simp only [Remote.send, Pending.del_set_self]
  cases h : JVal.get? resp "remoteResponseCode" with
  | none => rfl
  | some v => by_cases hv : JVal.eqStr v "OK" <;> simp [hv]

theorem get_item_of_get? {v : JVal} {key : String} {x : JVal}
    (h : JVal.get? v key = some x) : get_item v key = .ok x := by
  cases v with
  | str s => simp [JVal.get?] at h
  | obj fields => simp_all [JVal.get?, get_item]

end HelperLemmas

/-- C1: the claim says an inbound message whose `requestId` matches no
pending entry is logged and discarded, never raises and never crashes the
receive loop.  The code instead indexes `self._pending_requests[request_id]`
unguarded: with one unrelated entry `"pending-id"` in the table, the message
`{"requestId": "stale-id"}` makes the handler raise `KeyError("stale-id")`,
which propagates out of `_listen_for_messages` and terminates the receive
loop, with nothing logged. -/
theorem unmatched_requestId_raises_keyError :
    Remote.listen_loop [("pending-id", none)]
        [Frame.good (JVal.obj [("requestId", JVal.str "stale-id")])] =
      ([("pending-id", none)], [], some (PyError.keyError (JVal.str "stale-id"))) := by
  rfl

/-- C2: the claim says the pending entry is registered before the payload is
transmitted.  In the code `self._connection.send(...)` (line 115) runs
before `self._pending_requests[request_id] = future` (line 117): in every
execution of `_send` the event trace is `[transmit, register]`, transmit
strictly first. -/
theorem send_transmits_before_registering (request_id : String)
    (fields : List (String × JVal)) (pending : Pending)
    (outcome : SendOutcome) :
    (Remote.send request_id (JVal.obj fields) pending outcome).2.2 =
      [SendEvent.transmit
         (JVal.obj (setField fields "requestId" (JVal.str request_id))),
       SendEvent.register request_id] := rfl

/-- C3: on timeout, `_send` fails with `RemoteTimeoutError` carrying the
outbound payload (the original payload with the `requestId` attached), and
for every outcome — success, error response, or timeout — the pending table
returned by the call no longer binds the request's identifier (the
`finally: del`). -/
theorem send_timeout_error_and_unconditional_cleanup (request_id : String)
    (fields : List (String × JVal)) (pending : Pending) :
    (Remote.send request_id (JVal.obj fields) pending SendOutcome.timeout).1 =
      .error (.remoteTimeout
        (JVal.obj (setField fields "requestId" (JVal.str request_id)))) ∧
    ∀ outcome : SendOutcome,
      Pending.lookup
        (Remote.send request_id (JVal.obj fields) pending outcome).2.1
        request_id = none := by
  constructor
  · simp [Remote.send_timeout_eq]
  · intro outcome
    cases outcome with
    | timeout =>
        simp [Remote.send_timeout_eq, Pending.lookup_removeAll_self]
    | response resp =>
        simp [Remote.send_response_eq, Pending.lookup_removeAll_self]

/-- C4: for every `button` outside `BUTTONS`, `press_button` fails with
`InvalidButtonError` carrying the offending name, transmits nothing
(empty event trace) and leaves the pending table untouched — the membership
test runs before `_send` is reached. -/
theorem press_button_invalid_no_send (request_id button : String)
    (pending : Pending) (outcome : SendOutcome)
    (h : button ∉ Remote.BUTTONS) :
    Remote.press_button request_id button pending outcome =
      (.error (.invalidButton button), pending, []) := by
  simp [Remote.press_button, h]

/-- Witness for C4 at the concrete invalid name `"d3"` (the very name the
source's `__main__` block passes). -/
theorem press_button_invalid_no_send_witness :
    "d3" ∉ Remote.BUTTONS ∧
    Remote.press_button "r1" "d3" [] SendOutcome.timeout =
      (.error (.invalidButton "d3"), [], []) :=
  ⟨by decide,
   press_button_invalid_no_send "r1" "d3" [] SendOutcome.timeout (by decide)⟩

/-- C5: for a matching response delivered to the blocked caller, `_send`
returns the response when its `remoteResponseCode` field is the literal
string `"OK"`, and fails with `RemoteResponseError` carrying both the
outbound payload and the full response when the field is absent or holds any
other value. -/
theorem send_response_status_check (request_id : String)
    (fields rfields : List (String × JVal)) (pending : Pending) :
    (lookupField rfields "remoteResponseCode" = some (JVal.str "OK") →
      (Remote.send request_id (JVal.obj fields) pending
          (SendOutcome.response (JVal.obj rfields))).1 =
        .ok (JVal.obj rfields)) ∧
    (lookupField rfields "remoteResponseCode" = none →
      (Remote.send request_id (JVal.obj fields) pending
          (SendOutcome.response (JVal.obj rfields))).1 =
        .error (.remoteResponse
          (JVal.obj (setField fields "requestId" (JVal.str request_id)))
          (JVal.obj rfields))) ∧
    (∀ v, lookupField rfields "remoteResponseCode" = some v →
      v ≠ JVal.str "OK" →
      (Remote.send request_id (JVal.obj fields) pending
          (SendOutcome.response (JVal.obj rfields))).1 =
        .error (.remoteResponse
          (JVal.obj (setField fields "requestId" (JVal.str request_id)))
          (JVal.obj rfields))) := by
  refine ⟨fun h => ?_, fun h => ?_, fun v h hv => ?_⟩
  · simp [Remote.send_response_eq, JVal.get?, h, JVal.eqStr]
  · simp [Remote.send_response_eq, JVal.get?, h]
  · have he : JVal.eqStr v "OK" = false := by
      rcases Bool.eq_false_or_eq_true (JVal.eqStr v "OK") with hf | ht
      · exact absurd ((JVal.eqStr_true_iff v "OK").mp hf) hv
      · exact ht
    simp [Remote.send_response_eq, JVal.get?, h, he]

/-- Witness for C5: with response `{"remoteResponseCode": "KO"}` the call
fails with `RemoteResponseError` carrying payload and response. -/
theorem send_response_status_check_witness :
    (Remote.send "r1" (JVal.obj [("action", JVal.str "getVersions")]) []
        (SendOutcome.response
          (JVal.obj [("remoteResponseCode", JVal.str "KO")]))).1 =
      .error (.remoteResponse
        (JVal.obj [("action", JVal.str "getVersions"),
                   ("requestId", JVal.str "r1")])
        (JVal.obj [("remoteResponseCode", JVal.str "KO")])) := by
  have h := (send_response_status_check "r1"
      [("action", JVal.str "getVersions")]
      [("remoteResponseCode", JVal.str "KO")] []).2.2
      (JVal.str "KO") (by rfl)
      (by intro heq; injection heq with h2; exact absurd h2 (by decide))
  simpa [setField] using h

/-- C6: `is_power_on` transmits a command whose `action` field is
`"getStatus"`, and on an acknowledged `"OK"` response whose `data.power`
field is `pw` it returns `pw == "powerOn"` — true exactly when `pw` is the
string `"powerOn"` (so `"powerOff"` yields `false`). -/
theorem is_power_on_getStatus_power_flag (request_id : String)
    (pending : Pending) (rfields : List (String × JVal)) (d pw : JVal)
    (hok : lookupField rfields "remoteResponseCode" = some (JVal.str "OK"))
    (hd : lookupField rfields "data" = some d)
    (hpw : JVal.get? d "power" = some pw) :
    (Remote.is_power_on request_id pending
        (SendOutcome.response (JVal.obj rfields))).1 =
      .ok (JVal.eqStr pw "powerOn") ∧
    (JVal.eqStr pw "powerOn" = true ↔ pw = JVal.str "powerOn") ∧
    (Remote.is_power_on request_id pending
        (SendOutcome.response (JVal.obj rfields))).2.2 =
      [SendEvent.transmit
         (JVal.obj [("action", JVal.str "getStatus"),
                    ("requestId", JVal.str request_id)]),
       SendEvent.register request_id] := by
  have hgd : get_item (JVal.obj rfields) "data" = .ok d :=
    get_item_of_get? (by simpa [JVal.get?] using hd)
  have hgp : get_item d "power" = .ok pw := get_item_of_get? hpw
  refine ⟨?_, JVal.eqStr_true_iff pw "powerOn", ?_⟩ <;>
    simp [Remote.is_power_on, Remote.send_response_eq, JVal.get?, hok,
          hgd, hgp, JVal.eqStr, setField]

/-- Witness for C6, the spec's scenario: an `"OK"` response with
`data.power = "powerOff"` makes `is_power_on` return `false`. -/
theorem is_power_on_getStatus_power_flag_witness :
    (Remote.is_power_on "r1" []
        (SendOutcome.response
          (JVal.obj [("requestId", JVal.str "r1"),
                     ("remoteResponseCode", JVal.str "OK"),
                     ("data", JVal.obj [("power", JVal.str "powerOff")])]))).1 =
      .ok false := by
  have h := is_power_on_getStatus_power_flag "r1" []
      [("requestId", JVal.str "r1"),
       ("remoteResponseCode", JVal.str "OK"),
       ("data", JVal.obj [("power", JVal.str "powerOff")])]
      (JVal.obj [("power", JVal.str "powerOff")]) (JVal.str "powerOff")
      (by rfl) (by rfl) (by rfl)
  simpa [JVal.eqStr] using h.1

/-- C7 counterexample: a message without a `requestId` is logged as
unhandled and the loop continues (left conjunct), but a frame on which
`json.loads` raises produces no log and terminates the receive loop with the
uncaught decode exception, never reaching the next frame (right conjunct) —
so a decode failure is not treated like an unhandled message. -/
theorem decode_failure_not_logged_kills_loop :
    Remote.listen_loop [] [Frame.good (JVal.obj [])] =
      ([], [LogEvent.warnUnhandled (JVal.obj [])], none) ∧
    Remote.listen_loop [] [Frame.bad, Frame.good (JVal.obj [])] =
      ([], [], some PyError.jsonDecode) := ⟨rfl, rfl⟩

/-- C7 amended: a decode failure terminates the receive loop with the
uncaught `json.JSONDecodeError` and logs nothing, but it is never propagated
to a blocked caller: the pending table — and hence every future a caller is
blocked on — is left exactly as it was. -/
theorem decode_failure_terminates_loop_callers_untouched (pending : Pending)
    (rest : List Frame) :
    Remote.listen_loop pending (Frame.bad :: rest) =
      (pending, [], some PyError.jsonDecode) := rfl

/-- C8 counterexample: constructing a `Remote` without a timeout argument
does not give an indefinite wait (`self.timeout is None`); it gives the
default bound. -/
theorem absent_timeout_not_indefinite : Remote.init_timeout none ≠ none := by
  simp [Remote.init_timeout]

/-- C8 amended: a timeout of zero means wait indefinitely, an absent timeout
argument means the default 10-second bound, and any nonzero value bounds the
wait by that many seconds. -/
theorem timeout_normalization :
    Remote.init_timeout (some 0) = none ∧
    Remote.init_timeout none = some 10 ∧
    ∀ t : Nat, Remote.init_timeout (some (t + 1)) = some (t + 1) := by
  refine ⟨rfl, rfl, fun t => ?_⟩
  simp [Remote.init_timeout]

/-- C9: for every inbound message with a `data.status` field, the Status
Subscriber's handler computes `status == "powerOn"` and invokes the
user-supplied callback with that boolean exactly when a callback was
supplied at construction (`some` records the invocation and its argument);
with no callback the message is discarded with no other effect. -/
theorem status_listener_callback (mfields dfields : List (String × JVal))
    (st : JVal)
    (hd : lookupField mfields "data" = some (JVal.obj dfields))
    (hst : lookupField dfields "status" = some st) :
    StatusListener.handle_message true (JVal.obj mfields) =
      .ok (some (JVal.eqStr st "powerOn")) ∧
    StatusListener.handle_message false (JVal.obj mfields) = .ok none := by
  constructor <;> simp [StatusListener.handle_message, get_item, hd, hst]

/-- Witness for C9, the spec's scenario: on `{"data":{"status":"powerOn"}}`
the registered callback is invoked with `true`. -/
theorem status_listener_callback_witness :
    StatusListener.handle_message true
        (JVal.obj [("data", JVal.obj [("status", JVal.str "powerOn")])]) =
      .ok (some true) := by
  have h := status_listener_callback
      [("data", JVal.obj [("status", JVal.str "powerOn")])]
      [("status", JVal.str "powerOn")] (JVal.str "powerOn") (by rfl) (by rfl)
  simpa [JVal.eqStr] using h.1

/-- C10: an `"OK"` status code does not guarantee the data fields the public
operations read.  If the acknowledged response has no `data` key,
`is_power_on` and `get_versions` both raise `KeyError("data")`; if `data` is
present but lacks `"power"`, `is_power_on` raises `KeyError("power")`. -/
theorem ok_response_missing_data_raises (request_id : String)
    (pending : Pending) (rfields : List (String × JVal))
    (hok : lookupField rfields "remoteResponseCode" = some (JVal.str "OK")) :
    (lookupField rfields "data" = none →
      (Remote.is_power_on request_id pending
          (SendOutcome.response (JVal.obj rfields))).1 =
        .error (.keyError (JVal.str "data")) ∧
      (Remote.get_versions request_id pending
          (SendOutcome.response (JVal.obj rfields))).1 =
        .error (.keyError (JVal.str "data"))) ∧
    (∀ dfields, lookupField rfields "data" = some (JVal.obj dfields) →
      lookupField dfields "power" = none →
      (Remote.is_power_on request_id pending
          (SendOutcome.response (JVal.obj rfields))).1 =
        .error (.keyError (JVal.str "power"))) := by
  constructor
  · intro hnd
    constructor <;>
      simp [Remote.is_power_on, Remote.get_versions, Remote.send_response_eq,
            JVal.get?, hok, get_item, hnd, JVal.eqStr]
  · intro dfields hdd hnp
    simp [Remote.is_power_on, Remote.send_response_eq,
          JVal.get?, hok, get_item, hdd, hnp, JVal.eqStr]

/-- Witness for C10: the response `{"remoteResponseCode": "OK"}` (no `data`)
makes both `is_power_on` and `get_versions` raise `KeyError("data")`. -/
theorem ok_response_missing_data_raises_witness :
    (Remote.is_power_on "r1" []
        (SendOutcome.response
          (JVal.obj [("remoteResponseCode", JVal.str "OK")]))).1 =
      .error (.keyError (JVal.str "data")) ∧
    (Remote.get_versions "r1" []
        (SendOutcome.response
          (JVal.obj [("remoteResponseCode", JVal.str "OK")]))).1 =
      .error (.keyError (JVal.str "data")) :=
  (ok_response_missing_data_raises "r1" []
      [("remoteResponseCode", JVal.str "OK")] (by rfl)).1 (by rfl)
